import Mathlib

/-!
Verification of the feed-ranking / discovery code of the community blog
backend (`src/routes/posts.js` and the sibling route files).  The data
model and every operation below are shallow embeddings of the JavaScript
source: user and post identifiers become `Nat`, timestamps become `Int`
milliseconds since the epoch, the MongoDB sort/skip/limit combination on
a filtered collection becomes a sort of the filtered list followed by
`List.drop`/`List.take`, and a handler that can throw becomes a function
into `Except`.
-/

namespace CommunityBlog

/-! ### Data model (src/models, spec section 3) -/

/-- Connection status enumeration from `src/models/connection.js`. -/
inductive ConnStatus where
  | pending
  | accepted
  | declined
  | blocked
  deriving Repr, DecidableEq

/-- A Connection document: requester, recipient and status
(`src/models/connection.js`).  The message field plays no role in any
claim and is omitted. -/
structure Connection where
  requester : Nat
  recipient : Nat
  status : ConnStatus
  deriving Repr, DecidableEq

/-- A Post document as the feed code reads it: author reference,
publication flag, creation timestamp in milliseconds, the like array
(`none` models a document whose `likes` field is absent), the comment
array (only its user references matter to the ranking code) and the tag
list. -/
structure Post where
  id : Nat
  author : Nat
  isPublished : Bool
  createdAt : Int
  likes : Option (List Nat)
  comments : List Nat
  tags : List String
  deriving Repr, DecidableEq

/-- likesCount as computed by the routes: `post.likes ? post.likes.length : 0`
(src/routes/posts.js line 198 and the popular comparator lines 166-167). -/
def likesCount (p : Post) : Nat :=
  match p.likes with
  | some l => l.length
  | none => 0

/-- commentsCount as computed by the routes:
`post.comments ? post.comments.length : 0`. -/
def commentsCount (p : Post) : Nat :=
  p.comments.length

/-! ### Social Graph Accessor (src/routes/posts.js lines 93-103) -/

/-- Shallow embedding of the connected-user resolution: query all
Connection documents where the viewer is requester or recipient with
status accepted, map each to the other party, and append the viewer
itself (`connectedUserIds.push(req.user._id)`). -/
def connectedUserIds (viewer : Nat) (conns : List Connection) : List Nat :=
  let accepted := conns.filter fun c =>
    decide (c.status = ConnStatus.accepted ∧ (c.requester = viewer ∨ c.recipient = viewer))
  (accepted.map fun c => if c.requester = viewer then c.recipient else c.requester) ++ [viewer]

/-! ### Sort relations used by the routes -/

/-- Creation time descending, the `.sort(\x7b createdAt: -1 \x7d)` order. -/
def byCreatedDesc (a b : Post) : Prop :=
  b.createdAt ≤ a.createdAt

/-- Creation time ascending, the `oldest` order. -/
def byCreatedAsc (a b : Post) : Prop :=
  a.createdAt ≤ b.createdAt

/-- The `popular` comparator of src/routes/posts.js lines 165-171:
like count descending, ties broken by creation time descending. -/
def byPopular (a b : Post) : Prop :=
  likesCount b < likesCount a ∨ (likesCount a = likesCount b ∧ b.createdAt ≤ a.createdAt)

instance : DecidableRel byCreatedDesc :=
  fun a b => inferInstanceAs (Decidable (b.createdAt ≤ a.createdAt))

instance : DecidableRel byCreatedAsc :=
  fun a b => inferInstanceAs (Decidable (a.createdAt ≤ b.createdAt))

instance : DecidableRel byPopular :=
  fun a b => inferInstanceAs
    (Decidable (likesCount b < likesCount a ∨
      (likesCount a = likesCount b ∧ b.createdAt ≤ a.createdAt)))

instance : IsTotal Post byCreatedDesc :=
  ⟨fun a b => le_total b.createdAt a.createdAt⟩

instance : IsTrans Post byCreatedDesc :=
  ⟨fun _ _ _ h1 h2 => le_trans h2 h1⟩

instance : IsTotal Post byCreatedAsc :=
  ⟨fun a b => le_total a.createdAt b.createdAt⟩

instance : IsTrans Post byCreatedAsc :=
  ⟨fun _ _ _ h1 h2 => le_trans h1 h2⟩

instance : IsTotal Post byPopular := by
  constructor
  intro a b
  rcases lt_trichotomy (likesCount a) (likesCount b) with h | h | h
  · exact Or.inr (Or.inl h)
  · rcases le_total b.createdAt a.createdAt with h2 | h2
    · exact Or.inl (Or.inr ⟨h, h2⟩)
    · exact Or.inr (Or.inr ⟨h.symm, h2⟩)
  · exact Or.inl (Or.inl h)

instance : IsTrans Post byPopular := by
  constructor
  intro a b c hab hbc
  rcases hab with h1 | ⟨e1, t1⟩
  · rcases hbc with h2 | ⟨e2, _⟩
    · exact Or.inl (h2.trans h1)
    · exact Or.inl (e2 ▸ h1)
  · rcases hbc with h2 | ⟨e2, t2⟩
    · exact Or.inl (e1 ▸ h2)
    · exact Or.inr ⟨e1.trans e2, t2.trans t1⟩

/-- Sort a post list by creation time descending, modelling both the
Mongo `.sort(\x7b createdAt: -1 \x7d)` and the in-memory
`sort((a, b) => new Date(b.createdAt) - new Date(a.createdAt))`. -/
def sortCreatedDesc (l : List Post) : List Post :=
  List.insertionSort byCreatedDesc l

/-! ### Connection-priority merge, GET /api/posts/discover
(src/routes/posts.js lines 107-156) -/

/-- The 24-hour recency window in milliseconds,
`24 * 60 * 60 * 1000` (src/routes/posts.js line 107). -/
def twentyFourHoursMs : Int :=
  24 * 60 * 60 * 1000

/-- Filter of the first query (Bucket A): connected author, published,
created within the last 24 hours (`createdAt: \x7b $gte: twentyFourHoursAgo \x7d`). -/
def bucketAFilter (connIds : List Nat) (now : Int) (p : Post) : Bool :=
  decide (p.author ∈ connIds ∧ p.isPublished = true ∧ now - twentyFourHoursMs ≤ p.createdAt)

/-- Filter of the second query (Bucket B): author not connected
(`author: \x7b $nin: connectedUserIds \x7d`), published, any age. -/
def bucketBFilter (connIds : List Nat) (p : Post) : Bool :=
  decide (p.author ∉ connIds ∧ p.isPublished = true)

/-- Filter of the third query (Bucket C): connected author, published,
created 24 hours or more ago (`createdAt: \x7b $lt: twentyFourHoursAgo \x7d`). -/
def bucketCFilter (connIds : List Nat) (now : Int) (p : Post) : Bool :=
  decide (p.author ∈ connIds ∧ p.isPublished = true ∧ p.createdAt < now - twentyFourHoursMs)

/-- Bucket A membership as a proposition, used to state the promotion
property of claim C1. -/
def isBucketA (connIds : List Nat) (now : Int) (p : Post) : Prop :=
  p.author ∈ connIds ∧ p.isPublished = true ∧ now - twentyFourHoursMs ≤ p.createdAt

/-- Shallow embedding of the merge step of GET /api/posts/discover
(src/routes/posts.js lines 109-156).  When the viewer has at least one
connection (`connectedUserIds.length > 1`) the three bucket queries run,
each sorted by creation time descending; the other and older buckets are
then re-sorted together (`chronologicalOtherPosts`) and appended after
the recent-connection bucket.  Otherwise a single query returns all
published posts sorted by creation time descending. -/
def discoverAllPosts (viewer : Nat) (conns : List Connection) (now : Int)
    (posts : List Post) : List Post :=
  let connIds := connectedUserIds viewer conns
  if 1 < connIds.length then
    let recent := sortCreatedDesc (posts.filter (bucketAFilter connIds now))
    let other := sortCreatedDesc (posts.filter (bucketBFilter connIds))
    let older := sortCreatedDesc (posts.filter (bucketCFilter connIds now))
    recent ++ sortCreatedDesc (other ++ older)
  else
    sortCreatedDesc (posts.filter fun p => p.isPublished)

/-- Shallow embedding of the custom-sort switch of GET /api/posts/discover
(src/routes/posts.js lines 158-177).  `latest` skips the block entirely;
`oldest` and `popular` re-sort in place; `trending` is an explicit no-op
(`// Already ordered: recent connections first, then others`); the switch
has no default case, so any other selector leaves the list unchanged. -/
def applySort (sortKey : String) (l : List Post) : List Post :=
  if sortKey = "latest" then l
  else if sortKey = "oldest" then List.insertionSort byCreatedAsc l
  else if sortKey = "popular" then List.insertionSort byPopular l
  else if sortKey = "trending" then l
  else l

/-! ### The full GET /api/posts/discover handler
(src/routes/posts.js lines 80-237) -/

/-- A JavaScript error value as the catch handlers see it. -/
structure JsError where
  message : String
  stack : String
  deriving Repr, DecidableEq

/-- The 500 payload sent by the catch block of GET /api/posts/discover
(src/routes/posts.js lines 231-235): it copies `error.message` into
`message` and `error.stack` into `stack` (the source comment on the
stack line reads `for debugging; remove in production`). -/
structure ErrorResponse where
  error : String
  message : String
  stack : String
  deriving Repr, DecidableEq

/-- Shallow embedding of the catch block of GET /api/posts/discover
(src/routes/posts.js lines 228-236). -/
def discoverCatchResponse (e : JsError) : ErrorResponse :=
  { error := "Internal Server Error", message := e.message, stack := e.stack }

/-- The ReferenceError raised at src/routes/posts.js line 88: the
statement `const skip = (page - 1) * limit` reads the identifier `page`,
which is declared nowhere in the handler or its module. -/
def pageReferenceError : JsError :=
  { message := "page is not defined",
    stack := "ReferenceError: page is not defined at /src/routes/posts.js:88" }

/-- Connection-activity summary of the discover response
(src/routes/posts.js lines 216-225). -/
structure ConnectionStats where
  connectionsCount : Nat
  recentConnectionPosts : Nat
  deriving Repr, DecidableEq

/-- Success payload of GET /api/posts/discover (src/routes/posts.js
lines 209-226).  Note that the source sends no pagination object on this
route: the response fields are `posts`, `sortBy`, `filters` and
`connectionStats` only. -/
structure DiscoverResponse where
  posts : List Post
  sortKey : String
  connectionStats : ConnectionStats
  deriving Repr, DecidableEq

/-- models `parseInt(x) || d`: an absent value and a parse to 0 (or NaN)
both fall back to the default. -/
def parsedOr (v : Option Nat) (dflt : Nat) : Nat :=
  match v with
  | some n => if n = 0 then dflt else n
  | none => dflt

/-- Shallow embedding of the whole GET /api/posts/discover handler of
src/routes/posts.js (lines 80-237).  The body computes `limit` (line 87)
and then evaluates `const skip = (page - 1) * limit` (line 88); the
identifier `page` is unbound, so this statement throws
`ReferenceError: page is not defined` on every request and control
transfers to the catch block (lines 228-236), which sends the 500
payload built by `discoverCatchResponse`.  Every later line of the
handler - the connection query, the three-bucket merge, the sort switch,
the slice and the response - is unreachable; those steps are modelled
separately by `connectedUserIds`, `discoverAllPosts` and `applySort`,
which translate the unreachable code at lines 93-226. -/
def discover (limitParam : Option Nat) (sortParam : Option String) (_viewer : Nat)
    (_conns : List Connection) (_posts : List Post) (_now : Int) :
    Except ErrorResponse DiscoverResponse :=
  let _limit := min (parsedOr limitParam 10) 50
  let _sortKey := sortParam.getD "latest"
  Except.error (discoverCatchResponse pageReferenceError)

/-! ### The part_002 variant of GET /api/posts/discover
(src/unnamed/part_002 lines 76-164) -/

/-- Pagination metadata as produced by the routes that send it. -/
structure Pagination where
  currentPage : Nat
  totalPages : Nat
  totalPosts : Nat
  hasNext : Bool
  hasPrev : Bool
  deriving Repr, DecidableEq

/-- A post together with the derived display fields computed by the
part_002 discover route (lines 133-138). -/
structure PostWithStats where
  post : Post
  likesCount : Nat
  commentsCount : Nat
  isLiked : Bool
  deriving Repr, DecidableEq

/-- Response shape of the part_002 discover route. -/
structure P2Response where
  posts : List PostWithStats
  pagination : Pagination
  sortKey : String
  message : Option String
  deriving Repr, DecidableEq

/-- Sort order chosen by the part_002 sort switch (lines 90-103).
`oldest` sorts ascending; every other selector, `popular` and `trending`
included, results in creation time descending: the `popular` sort object
is `\x7b likes.length: -1, createdAt: -1 \x7d`, and the path
`likes.length` matches no field of the like subdocuments, so in MongoDB
that primary key is missing on every document and the secondary key
`createdAt: -1` alone decides the order. -/
def p2SortPosts (sortKey : String) (l : List Post) : List Post :=
  if sortKey = "oldest" then List.insertionSort byCreatedAsc l
  else sortCreatedDesc l

/-- Math.ceil(totalPosts / limit) on naturals, for limit > 0. -/
def ceilDivNat (a b : Nat) : Nat :=
  (a + b - 1) / b

/-- Shallow embedding of the part_002 discover route (src/unnamed/part_002
lines 76-164): parse page, limit (capped at 50) and sort; count the
published posts; on a zero count return the empty fast-path response
before any find or sort; otherwise query published posts with the chosen
sort, skip and limit, derive the display stats and send the pagination
metadata. -/
def p2Discover (pageParam limitParam : Option Nat) (sortParam : Option String)
    (posts : List Post) : P2Response :=
  let page := parsedOr pageParam 1
  let limit := min (parsedOr limitParam 10) 50
  let skip := (page - 1) * limit
  let sortKey := sortParam.getD "latest"
  let totalPosts := (posts.filter fun p => p.isPublished).length
  if totalPosts = 0 then
    { posts := [],
      pagination :=
        { currentPage := 1, totalPages := 0, totalPosts := 0,
          hasNext := false, hasPrev := false },
      sortKey := sortKey,
      message := some "No published posts found" }
  else
    let pagePosts :=
      ((p2SortPosts sortKey (posts.filter fun p => p.isPublished)).drop skip).take limit
    { posts := pagePosts.map fun p =>
        { post := p, likesCount := likesCount p,
          commentsCount := commentsCount p, isLiked := false },
      pagination :=
        { currentPage := page, totalPages := ceilDivNat totalPosts limit,
          totalPosts := totalPosts,
          hasNext := decide (page < ceilDivNat totalPosts limit),
          hasPrev := decide (1 < page) },
      sortKey := sortKey,
      message := none }

/-! ### The part_001 variant of GET /api/posts/discover
(src/unnamed/part_001 lines 276-451) -/

/-- The mixed score computed by the part_001 aggregation pipeline
(lines 326-355): the age of the post in fractional days,
`(now - createdAt) / (1000 * 60 * 60 * 24)`, plus the engagement term
`0.1 * (size likes + 1.5 * size comments)`. -/
def p1MixedScore (now : Int) (p : Post) : ℚ :=
  ((now - p.createdAt : Int) : ℚ) / 86400000
    + (1 / 10) * ((likesCount p : ℚ) + (3 / 2) * (commentsCount p : ℚ))

/-- Descending order on the part_001 mixed score (`$sort: \x7b mixedScore: -1 \x7d`,
line 356; the pipeline has no tie-break key). -/
def p1MixedGE (now : Int) (a b : Post) : Prop :=
  p1MixedScore now b ≤ p1MixedScore now a

instance (now : Int) : DecidableRel (p1MixedGE now) :=
  fun a b => inferInstanceAs (Decidable (p1MixedScore now b ≤ p1MixedScore now a))

instance (now : Int) : IsTotal Post (p1MixedGE now) :=
  ⟨fun a b => le_total (p1MixedScore now b) (p1MixedScore now a)⟩

instance (now : Int) : IsTrans Post (p1MixedGE now) :=
  ⟨fun _ _ _ h1 h2 => le_trans h2 h1⟩

/-- The engagement score of the part_001 popular pipeline (lines 296-311):
`size likes + 2 * size comments`. -/
def p1EngagementScore (p : Post) : Nat :=
  likesCount p + 2 * commentsCount p

/-- Descending order on the part_001 engagement score with creation time
descending as tie-break (`$sort: \x7b engagementScore: -1, createdAt: -1 \x7d`). -/
def p1PopularGE (a b : Post) : Prop :=
  p1EngagementScore b < p1EngagementScore a ∨
    (p1EngagementScore a = p1EngagementScore b ∧ b.createdAt ≤ a.createdAt)

instance : DecidableRel p1PopularGE :=
  fun a b => inferInstanceAs
    (Decidable (p1EngagementScore b < p1EngagementScore a ∨
      (p1EngagementScore a = p1EngagementScore b ∧ b.createdAt ≤ a.createdAt)))

/-- Shallow embedding of the post selection of the part_001 discover
route (src/unnamed/part_001 lines 276-434): `latest` is a find sorted by
creation time descending; `popular` and the `mixed`/default branch run
aggregation pipelines that score, sort descending, then apply `$skip`
and `$limit`; `random` draws a `$sample` and is not a deterministic
function of the store, so it is modelled as `none`.  The switch sends
every selector other than latest, popular and random - `mixed` and any
unknown value alike - to the default mixed pipeline. -/
def p1Discover (sortKey : String) (pageParam limitParam : Option Nat)
    (posts : List Post) (now : Int) : Option (List Post) :=
  let page := parsedOr pageParam 1
  let limit := parsedOr limitParam 10
  let skip := (page - 1) * limit
  if sortKey = "latest" then
    some (((sortCreatedDesc (posts.filter fun p => p.isPublished)).drop skip).take limit)
  else if sortKey = "popular" then
    some (((List.insertionSort p1PopularGE (posts.filter fun p => p.isPublished)).drop skip).take limit)
  else if sortKey = "random" then
    none
  else
    some (((List.insertionSort (p1MixedGE now) (posts.filter fun p => p.isPublished)).drop skip).take limit)

/-! ### Tag Trend Aggregator, GET /api/posts/trending-tags
(src/routes/posts.js lines 316-350) -/

/-- The 7-day trending window in milliseconds
(`7 * 24 * 60 * 60 * 1000`, src/routes/posts.js line 328). -/
def sevenDaysMs : Int :=
  7 * 24 * 60 * 60 * 1000

/-- One output row of the trending-tags aggregation (the `$project`
stage, lines 336-343). -/
structure TagRow where
  tag : String
  totalPosts : Nat
  recentPosts : Nat
  deriving Repr, DecidableEq

/-- The rows produced by `$match: \x7b isPublished: true \x7d` followed by
`$unwind: $tags`: one (tag, createdAt) row per tag occurrence per
published post. -/
def tagRows (posts : List Post) : List (String × Int) :=
  (posts.filter fun p => p.isPublished).flatMap fun p =>
    p.tags.map fun t => (t, p.createdAt)

/-- Sort order of the trending-tags output
(`$sort: \x7b recentPosts: -1, count: -1 \x7d`, line 334). -/
def byTagRank (a b : TagRow) : Prop :=
  b.recentPosts < a.recentPosts ∨
    (a.recentPosts = b.recentPosts ∧ b.totalPosts ≤ a.totalPosts)

instance : DecidableRel byTagRank :=
  fun a b => inferInstanceAs
    (Decidable (b.recentPosts < a.recentPosts ∨
      (a.recentPosts = b.recentPosts ∧ b.totalPosts ≤ a.totalPosts)))

instance : IsTotal TagRow byTagRank := by
  constructor
  intro a b
  rcases lt_trichotomy a.recentPosts b.recentPosts with h | h | h
  · exact Or.inr (Or.inl h)
  · rcases le_total b.totalPosts a.totalPosts with h2 | h2
    · exact Or.inl (Or.inr ⟨h, h2⟩)
    · exact Or.inr (Or.inr ⟨h.symm, h2⟩)
  · exact Or.inl (Or.inl h)

instance : IsTrans TagRow byTagRank := by
  constructor
  intro a b c hab hbc
  rcases hab with h1 | ⟨e1, t1⟩
  · rcases hbc with h2 | ⟨e2, _⟩
    · exact Or.inl (h2.trans h1)
    · exact Or.inl (e2 ▸ h1)
  · rcases hbc with h2 | ⟨e2, t2⟩
    · exact Or.inl (e1 ▸ h2)
    · exact Or.inr ⟨e1.trans e2, t2.trans t1⟩

/-- Shallow embedding of the trending-tags aggregation
(src/routes/posts.js lines 320-344): unwind the tag lists of published
posts into rows, group the rows by tag string computing the row count
and the count of rows whose post was created inside the 7-day window,
sort by recent count descending then total count descending, and
truncate to the requested limit. -/
def trendingTags (posts : List Post) (now : Int) (limit : Nat) : List TagRow :=
  let rows := tagRows posts
  let keys := (rows.map Prod.fst).dedup
  let grouped := keys.map fun t =>
    TagRow.mk t
      ((rows.filter fun r => decide (r.1 = t)).length)
      ((rows.filter fun r => decide (r.1 = t ∧ now - sevenDaysMs ≤ r.2)).length)
  (List.insertionSort byTagRank grouped).take limit

/-- Number of tag occurrences across the tag lists of published posts; a
post listing the same tag twice contributes two. -/
def tagOccurrences (posts : List Post) (t : String) : Nat :=
  ((posts.filter fun p => p.isPublished).flatMap Post.tags).count t

/-- Number of tag occurrences restricted to published posts created
inside the 7-day window. -/
def recentTagOccurrences (posts : List Post) (now : Int) (t : String) : Nat :=
  ((posts.filter fun p =>
    p.isPublished && decide (now - sevenDaysMs ≤ p.createdAt)).flatMap Post.tags).count t

/-- Modelled from the spec wording of claim C6: the number of published
posts whose tag list contains the tag.  Defined for comparison with the
occurrence count the aggregation actually computes. -/
def postsContainingTag (posts : List Post) (t : String) : Nat :=
  (posts.filter fun p => p.isPublished && decide (t ∈ p.tags)).length

/-- Modelled from the spec wording of claim C2: the weighted trending
score `max(0, 30 - daysSinceCreated) + 2 * (likeCount + 1.5 * commentCount)`
with `daysSinceCreated` in fractional days.  No route computes this
formula; it is defined for comparison with the code. -/
def specTrendingScore (now : Int) (p : Post) : ℚ :=
  max 0 (30 - ((now - p.createdAt : Int) : ℚ) / 86400000)
    + 2 * ((likesCount p : ℚ) + (3 / 2) * (commentsCount p : ℚ))

/-! ### POST /api/posts/:id/like (src/routes/posts.js lines 455-479) -/

/-- Result of the like toggle: the new like array and the response
fields `liked` and `likesCount`. -/
structure LikeResult where
  likes : List Nat
  liked : Bool
  likesCount : Nat
  deriving Repr, DecidableEq

/-- Shallow embedding of POST /api/posts/:id/like (src/routes/posts.js
lines 455-479): a missing like array is first initialised to empty; if
an entry for the user exists, every entry of that user is filtered out
and the response is `liked: false` with the new length; otherwise one
entry for the user is pushed and the response is `liked: true` with the
new length. -/
def toggleLike (userId : Nat) (likes0 : Option (List Nat)) : LikeResult :=
  let likes := likes0.getD []
  if userId ∈ likes then
    let newLikes := likes.filter fun u => decide (u ≠ userId)
    { likes := newLikes, liked := false, likesCount := newLikes.length }
  else
    { likes := likes ++ [userId], liked := true, likesCount := (likes ++ [userId]).length }

/-! ### Concrete store states used by witnesses and counterexamples -/

/-- Store with a single accepted connection between users 1 and 0. -/
def wConns : List Connection :=
  [{ requester := 1, recipient := 0, status := ConnStatus.accepted }]

/-- Request time for the witness scenario. -/
def wNow : Int :=
  200000000000

/-- Post by connection 1, two hours old. -/
def wPostA : Post :=
  { id := 1, author := 1, isPublished := true, createdAt := 200000000000 - 7200000,
    likes := some [], comments := [], tags := [] }

/-- Post by non-connection 2, ten hours old. -/
def wPostB : Post :=
  { id := 2, author := 2, isPublished := true, createdAt := 200000000000 - 36000000,
    likes := some [], comments := [], tags := [] }

/-- Post by connection 1, forty-eight hours old. -/
def wPostC : Post :=
  { id := 3, author := 1, isPublished := true, createdAt := 200000000000 - 172800000,
    likes := some [], comments := [], tags := [] }

/-- The witness store of the spec scenario: one fresh connection post,
one mid-age non-connection post, one old connection post. -/
def wPosts : List Post :=
  [wPostA, wPostB, wPostC]

/-- Request time for the trending counterexample. -/
def cNow : Int :=
  2592000000000

/-- Store with one accepted connection between users 9 and 0, so the
viewer 0 has a connection but neither candidate author is connected. -/
def cConns : List Connection :=
  [{ requester := 9, recipient := 0, status := ConnStatus.accepted }]

/-- Fresh post with no engagement. -/
def cPostNew : Post :=
  { id := 1, author := 5, isPublished := true, createdAt := 2592000000000,
    likes := some [], comments := [], tags := [] }

/-- One-day-old post with ten likes. -/
def cPostLiked : Post :=
  { id := 2, author := 6, isPublished := true, createdAt := 2592000000000 - 86400000,
    likes := some [11, 12, 13, 14, 15, 16, 17, 18, 19, 20], comments := [], tags := [] }

/-- A published post that lists the same tag twice. -/
def dupTagPost : Post :=
  { id := 1, author := 2, isPublished := true, createdAt := 0,
    likes := none, comments := [], tags := ["lean", "lean"] }

/-- An unpublished post, giving a store whose published count is zero. -/
def draftPost : Post :=
  { id := 1, author := 2, isPublished := false, createdAt := 0,
    likes := none, comments := [], tags := [] }

/-! ## Theorems -/

/-- Claim C7: for every viewer, the resolved connected-user set equals
the set of other parties of all Connection records with status accepted
in which the viewer is requester or recipient - membership does not
depend on who initiated - united with the viewer itself. -/
theorem connectedUserIds_spec (viewer : Nat) (conns : List Connection) (x : Nat) :
    x ∈ connectedUserIds viewer conns ↔
      (x = viewer ∨ ∃ c, c ∈ conns ∧ c.status = ConnStatus.accepted ∧
        ((c.requester = viewer ∧ c.recipient = x) ∨
         (c.recipient = viewer ∧ c.requester = x))) := by
  unfold connectedUserIds
  simp only [List.mem_append, List.mem_singleton, List.mem_map, List.mem_filter,
    decide_eq_true_eq]
  constructor
  · rintro (⟨c, ⟨hc, hacc, hvr⟩, hx⟩ | rfl)
    · refine Or.inr ⟨c, hc, hacc, ?_⟩
      by_cases h : c.requester = viewer
      · simp only [if_pos h] at hx
        exact Or.inl ⟨h, hx⟩
      · simp only [if_neg h] at hx
        rcases hvr with h2 | h2
        · exact absurd h2 h
        · exact Or.inr ⟨h2, hx⟩
    · exact Or.inl rfl
  · rintro (rfl | ⟨c, hc, hacc, ⟨h1, h2⟩ | ⟨h1, h2⟩⟩)
    · exact Or.inr rfl
    · exact Or.inl ⟨c, ⟨hc, hacc, Or.inl h1⟩, by simp [h1, h2]⟩
    · refine Or.inl ⟨c, ⟨hc, hacc, Or.inr h1⟩, ?_⟩
      by_cases h : c.requester = viewer
      · rw [if_pos h, h1]
        rw [h] at h2
        exact h2
      · rw [if_neg h, h2]

/-- Claim C3: the GET /api/posts/discover handler of src/routes/posts.js
never produces a feed response at all - for every request and every
store state it throws `ReferenceError: page is not defined` at the skip
computation of line 88 and answers with the catch-block 500 payload, so
the claimed pagination identities never hold of its response. -/
theorem discover_pageReferenceError (limitParam : Option Nat) (sortParam : Option String)
    (viewer : Nat) (conns : List Connection) (posts : List Post) (now : Int) :
    discover limitParam sortParam viewer conns posts now =
      Except.error (discoverCatchResponse pageReferenceError) ∧
    (discoverCatchResponse pageReferenceError).message = "page is not defined" :=
  ⟨rfl, rfl⟩

/-- Claim C4 counterexample: with an empty store the main discover
handler does not return the claimed empty page - it returns the 500
catch payload, so no field of the claimed success response exists. -/
theorem discover_emptyStore_counterexample :
    discover (some 10) (some "latest") 7 [] [] 0 =
      Except.error (discoverCatchResponse pageReferenceError) ∧
    (discover (some 10) (some "latest") 7 [] [] 0).isOk = false :=
  ⟨rfl, rfl⟩

/-- Claim C9: the catch handler of GET /api/posts/discover copies the
message and the stack trace of the caught store error into the 500
payload, so a store failure is answered with the store-internal error
text rather than a redacted taxonomy value. -/
theorem discoverCatch_leaksStack :
    (discoverCatchResponse
      { message := "connect ECONNREFUSED 127.0.0.1:27017",
        stack := "MongoNetworkError: connect ECONNREFUSED 127.0.0.1:27017" }).stack
      = "MongoNetworkError: connect ECONNREFUSED 127.0.0.1:27017" ∧
    (discoverCatchResponse
      { message := "connect ECONNREFUSED 127.0.0.1:27017",
        stack := "MongoNetworkError: connect ECONNREFUSED 127.0.0.1:27017" }).message
      = "connect ECONNREFUSED 127.0.0.1:27017" :=
  ⟨rfl, rfl⟩

/-- Claim C10: the like route toggles the membership of the user in the
like set; the returned liked flag and likesCount report membership and
size after the operation; toggling twice restores the original
membership; the user occurs exactly once after liking and zero times
after unliking; and a duplicate-free like set stays duplicate-free. -/
theorem likeToggle_spec (u : Nat) (likes0 : Option (List Nat)) :
    ((toggleLike u likes0).liked = true ↔ u ∈ (toggleLike u likes0).likes) ∧
    (toggleLike u likes0).likesCount = (toggleLike u likes0).likes.length ∧
    (u ∈ (toggleLike u likes0).likes ↔ u ∉ likes0.getD []) ∧
    (toggleLike u likes0).likes.count u = (if u ∈ likes0.getD [] then 0 else 1) ∧
    (∀ x, x ∈ (toggleLike u (some (toggleLike u likes0).likes)).likes ↔
      x ∈ likes0.getD []) ∧
    (toggleLike u (some ((likes0.getD []).dedup))).likes.Nodup := by
  by_cases h : u ∈ likes0.getD []
  · have hmemf : u ∉ (likes0.getD []).filter fun v => decide (v ≠ u) := by
      simp [List.mem_filter]
    refine ⟨?_, ?_, ?_, ?_, ?_, ?_⟩
    · simp [toggleLike, h, hmemf]
    · simp [toggleLike, h]
    · simp [toggleLike, h, hmemf]
    · simp only [toggleLike, h, if_true, if_pos]
      exact List.count_eq_zero.mpr hmemf
    · intro x
      simp only [toggleLike, h, if_true, if_pos, hmemf, if_neg, if_false,
        Option.getD_some, List.mem_append, List.mem_filter, List.mem_singleton,
        decide_eq_true_eq]
      by_cases hx : x = u
      · simp [hx, h]
      · simp [hx]
    · have hd : u ∈ (likes0.getD []).dedup := List.mem_dedup.mpr h
      simp only [toggleLike, Option.getD_some, hd, if_true, if_pos]
      exact (List.nodup_dedup _).filter _
  · refine ⟨?_, ?_, ?_, ?_, ?_, ?_⟩
    · simp [toggleLike, h]
    · simp [toggleLike, h]
    · simp [toggleLike, h]
    · simp only [toggleLike, h, if_false, if_neg]
      rw [List.count_append, List.count_eq_zero.mpr h]
      simp
    · intro x
      have hself : u ∈ likes0.getD [] ++ [u] := by simp
      have hfilter : ((likes0.getD []) ++ [u]).filter (fun v => decide (v ≠ u)) =
          likes0.getD [] := by
        rw [List.filter_append]
        have h1 : (likes0.getD []).filter (fun v => decide (v ≠ u)) = likes0.getD [] :=
          List.filter_eq_self.mpr fun a ha => by
            simp only [decide_eq_true_eq]
            exact fun hau => h (hau ▸ ha)
        have h2 : ([u].filter fun v => decide (v ≠ u)) = [] := by simp
        rw [h1, h2, List.append_nil]
      simp only [toggleLike, h, if_false, if_neg, Option.getD_some, hself, if_true,
        if_pos, hfilter]
    · have hd : u ∉ (likes0.getD []).dedup := fun hc => h (List.mem_dedup.mp hc)
      simp only [toggleLike, Option.getD_some, hd, if_false, if_neg]
      rw [List.nodup_append]
      refine ⟨List.nodup_dedup _, List.nodup_singleton u, ?_⟩
      intro a ha hau
      rw [List.mem_singleton] at hau
      exact hd (hau ▸ ha)

/-- Claim C5: under the popular mode, any post preceding another in the
output (before or after the pagination slice) has strictly more likes,
or equally many likes and a creation time at least as late; a missing
like array counts as zero likes. -/
theorem popularSort_pairwise (l : List Post) (skip lim : Nat) :
    List.Pairwise byPopular (((applySort "popular" l).drop skip).take lim) ∧
    (∀ p : Post, likesCount { p with likes := none } = 0) := by
  constructor
  · have h1 : applySort "popular" l = List.insertionSort byPopular l := by
      simp [applySort]
    rw [h1]
    exact List.Pairwise.sublist
      ((List.take_sublist _ _).trans (List.drop_sublist _ _))
      (List.sorted_insertionSort byPopular l)
  · intro p
    rfl

/-- Claim C2 counterexample: under the trending mode the main discover
route returns the merge order unchanged - here the fresh zero-engagement
post precedes the one-day-old ten-like post even though the latter has
the strictly greater claimed weighted score, so the output is not sorted
descending by that score. -/
theorem trendingMode_counterexample :
    applySort "trending" (discoverAllPosts 0 cConns cNow [cPostNew, cPostLiked]) =
      [cPostNew, cPostLiked] ∧
    specTrendingScore cNow cPostNew < specTrendingScore cNow cPostLiked := by
  refine ⟨by decide, ?_⟩
  have e1 : specTrendingScore cNow cPostNew = 30 := by
    norm_num [specTrendingScore, cNow, cPostNew, likesCount, commentsCount]
  have e2 : specTrendingScore cNow cPostLiked = 49 := by
    norm_num [specTrendingScore, cNow, cPostLiked, likesCount, commentsCount]
  rw [e1, e2]
  norm_num

/-- Claim C2 (amended): under the trending mode the main discover route
applies no re-sort at all - the connection-priority merge order is
returned unchanged - while the part_001 mixed pipeline orders published
posts by its own score, age in fractional days plus
0.1 x (likeCount + 1.5 x commentCount), descending. -/
theorem trendingMode_amended :
    (∀ l : List Post, applySort "trending" l = l) ∧
    (∀ (posts : List Post) (now : Int),
        List.Sorted (p1MixedGE now)
          (List.insertionSort (p1MixedGE now) (posts.filter fun p => p.isPublished)) ∧
        (List.insertionSort (p1MixedGE now) (posts.filter fun p => p.isPublished)).Perm
          (posts.filter fun p => p.isPublished)) := by
  constructor
  · intro l
    simp [applySort]
  · intro posts now
    exact ⟨List.sorted_insertionSort _ _, List.perm_insertionSort _ _⟩

/-- Claim C8: a ranking selector outside the known enumeration is not
rejected: the main sort switch leaves the merge order exactly as the
default latest mode does, the part_001 route runs its default mixed
pipeline, and the part_002 route returns the same posts and pagination
as its latest default. -/
theorem unknownSortKey_fallsBack (s : String) (l posts : List Post)
    (pageParam limitParam : Option Nat) (now : Int)
    (h : s ∉ ["latest", "oldest", "popular", "trending", "mixed", "random"]) :
    applySort s l = applySort "latest" l ∧
    p1Discover s pageParam limitParam posts now =
      p1Discover "mixed" pageParam limitParam posts now ∧
    (p2Discover pageParam limitParam (some s) posts).posts =
      (p2Discover pageParam limitParam (some "latest") posts).posts ∧
    (p2Discover pageParam limitParam (some s) posts).pagination =
      (p2Discover pageParam limitParam (some "latest") posts).pagination := by
  simp only [List.mem_cons, List.not_mem_nil, or_false, not_or] at h
  obtain ⟨h1, h2, h3, h4, h5, h6⟩ := h
  refine ⟨?_, ?_, ?_, ?_⟩
  · simp [applySort, h1, h2, h3, h4]
  · simp [p1Discover, h1, h3, h6]
  · by_cases hz : ((posts.filter fun p => p.isPublished).length = 0)
    · simp [p2Discover, hz]
    · simp [p2Discover, hz, p2SortPosts, h2]
  · by_cases hz : ((posts.filter fun p => p.isPublished).length = 0)
    · simp [p2Discover, hz]
    · simp [p2Discover, hz, p2SortPosts, h2]

/-- Claim C8 witness: the unknown selector `newest` is handled exactly
like the default mode by all three implementations. -/
theorem unknownSortKey_fallsBack_witness :
    applySort "newest" wPosts = applySort "latest" wPosts ∧
    p1Discover "newest" none none wPosts wNow =
      p1Discover "mixed" none none wPosts wNow ∧
    (p2Discover none none (some "newest") wPosts).posts =
      (p2Discover none none (some "latest") wPosts).posts ∧
    (p2Discover none none (some "newest") wPosts).pagination =
      (p2Discover none none (some "latest") wPosts).pagination :=
  unknownSortKey_fallsBack "newest" wPosts wPosts none none wNow (by decide)

/-- Claim C4 (amended): the part_002 discover route checks the published
count before any find or sort and, when it is zero, answers with the
empty page - posts empty, currentPage 1, totalPages 0, totalPosts 0,
hasNext and hasPrev false - and the descriptive message, whatever mode
and page were requested. -/
theorem p2Discover_emptyStore (pageParam limitParam : Option Nat)
    (sortParam : Option String) (posts : List Post)
    (h : (posts.filter fun p => p.isPublished).length = 0) :
    p2Discover pageParam limitParam sortParam posts =
      { posts := [],
        pagination := { currentPage := 1, totalPages := 0, totalPosts := 0,
                        hasNext := false, hasPrev := false },
        sortKey := sortParam.getD "latest",
        message := some "No published posts found" } := by
  simp [p2Discover, h]

/-- Claim C4 witness: a store holding only a draft gives the empty
fast-path response even for page 3 of the popular mode. -/
theorem p2Discover_emptyStore_witness :
    (([draftPost].filter fun p => p.isPublished).length = 0) ∧
    p2Discover (some 3) (some 20) (some "popular") [draftPost] =
      { posts := [],
        pagination := { currentPage := 1, totalPages := 0, totalPosts := 0,
                        hasNext := false, hasPrev := false },
        sortKey := "popular",
        message := some "No published posts found" } :=
  ⟨by decide, p2Discover_emptyStore (some 3) (some 20) (some "popular") [draftPost] (by decide)⟩

/-- With at least one accepted connection involving the viewer, the
resolved id list is longer than the singleton viewer list, which is the
branch condition `connectedUserIds.length > 1` of the discover merge. -/
theorem connectedUserIds_length_pos (viewer : Nat) (conns : List Connection)
    (h : ∃ c ∈ conns, c.status = ConnStatus.accepted ∧
      (c.requester = viewer ∨ c.recipient = viewer)) :
    1 < (connectedUserIds viewer conns).length := by
  obtain ⟨c, hc, hacc, hvr⟩ := h
  have hmem : c ∈ conns.filter fun c =>
      decide (c.status = ConnStatus.accepted ∧
        (c.requester = viewer ∨ c.recipient = viewer)) :=
    List.mem_filter.mpr ⟨hc, by simp [hacc, hvr]⟩
  have hpos : 0 < (conns.filter fun c =>
      decide (c.status = ConnStatus.accepted ∧
        (c.requester = viewer ∨ c.recipient = viewer))).length :=
    List.length_pos.mpr (List.ne_nil_of_mem hmem)
  unfold connectedUserIds
  simp only [List.length_append, List.length_map, List.length_cons, List.length_nil]
  omega

/-- The Bool bucket-A filter decides the bucket-A proposition. -/
theorem bucketAFilter_eq_true (connIds : List Nat) (now : Int) (p : Post) :
    bucketAFilter connIds now p = true ↔ isBucketA connIds now p := by
  simp [bucketAFilter, isBucketA]

/-- Claim C1: for a viewer with at least one accepted connection, the
discover merge puts the published recent-connection posts (Bucket A)
first, sorted by creation time descending, followed by a single list
that is sorted by creation time descending and holds exactly the
published posts of non-connected authors (Bucket B) together with the
published connection posts aged 24 hours or more (Bucket C); every
Bucket-A post therefore precedes every non-Bucket-A post. -/
theorem discover_connectionPromotion (viewer : Nat) (conns : List Connection)
    (now : Int) (posts : List Post)
    (h : ∃ c ∈ conns, c.status = ConnStatus.accepted ∧
      (c.requester = viewer ∨ c.recipient = viewer)) :
    ∃ rest,
      discoverAllPosts viewer conns now posts =
        sortCreatedDesc (posts.filter (bucketAFilter (connectedUserIds viewer conns) now))
          ++ rest ∧
      List.Sorted byCreatedDesc
        (sortCreatedDesc (posts.filter (bucketAFilter (connectedUserIds viewer conns) now))) ∧
      (∀ p ∈ sortCreatedDesc (posts.filter (bucketAFilter (connectedUserIds viewer conns) now)),
        isBucketA (connectedUserIds viewer conns) now p) ∧
      rest.Perm (posts.filter (bucketBFilter (connectedUserIds viewer conns)) ++
                 posts.filter (bucketCFilter (connectedUserIds viewer conns) now)) ∧
      List.Sorted byCreatedDesc rest ∧
      (∀ p ∈ rest, ¬ isBucketA (connectedUserIds viewer conns) now p) := by
  have hlen := connectedUserIds_length_pos viewer conns h
  refine ⟨sortCreatedDesc
      (sortCreatedDesc (posts.filter (bucketBFilter (connectedUserIds viewer conns))) ++
       sortCreatedDesc (posts.filter (bucketCFilter (connectedUserIds viewer conns) now))),
      ?_, ?_, ?_, ?_, ?_, ?_⟩
  · simp only [discoverAllPosts]
    rw [if_pos hlen]
  · exact List.sorted_insertionSort _ _
  · intro p hp
    rw [sortCreatedDesc, List.mem_insertionSort] at hp
    exact (bucketAFilter_eq_true _ now p).mp (List.mem_filter.mp hp).2
  · exact (List.perm_insertionSort _ _).trans
      ((List.perm_insertionSort _ _).append (List.perm_insertionSort _ _))
  · exact List.sorted_insertionSort _ _
  · intro p hp
    rw [sortCreatedDesc, List.mem_insertionSort, List.mem_append] at hp
    rintro ⟨hmem, _, hrec⟩
    rcases hp with hp | hp
    · rw [sortCreatedDesc, List.mem_insertionSort, List.mem_filter] at hp
      have := hp.2
      simp only [bucketBFilter, decide_eq_true_eq] at this
      exact this.1 hmem
    · rw [sortCreatedDesc, List.mem_insertionSort, List.mem_filter] at hp
      have := hp.2
      simp only [bucketCFilter, decide_eq_true_eq] at this
      exact absurd hrec (not_le.mpr this.2.2)

/-- Claim C1 witness: in the spec scenario - one accepted connection,
one fresh connection post, one mid-age outsider post, one old connection
post - the merge satisfies the promotion property. -/
theorem discover_connectionPromotion_witness :
    (∃ c ∈ wConns, c.status = ConnStatus.accepted ∧
      (c.requester = 0 ∨ c.recipient = 0)) ∧
    (∃ rest,
      discoverAllPosts 0 wConns wNow wPosts =
        sortCreatedDesc (wPosts.filter (bucketAFilter (connectedUserIds 0 wConns) wNow))
          ++ rest ∧
      List.Sorted byCreatedDesc
        (sortCreatedDesc (wPosts.filter (bucketAFilter (connectedUserIds 0 wConns) wNow))) ∧
      (∀ p ∈ sortCreatedDesc (wPosts.filter (bucketAFilter (connectedUserIds 0 wConns) wNow)),
        isBucketA (connectedUserIds 0 wConns) wNow p) ∧
      rest.Perm (wPosts.filter (bucketBFilter (connectedUserIds 0 wConns)) ++
                 wPosts.filter (bucketCFilter (connectedUserIds 0 wConns) wNow)) ∧
      List.Sorted byCreatedDesc rest ∧
      (∀ p ∈ rest, ¬ isBucketA (connectedUserIds 0 wConns) wNow p)) :=
  ⟨by decide, discover_connectionPromotion 0 wConns wNow wPosts (by decide)⟩

/-- Counting the rows of one post that carry a given tag counts the
occurrences of the tag in the tag list of that post. -/
theorem perPost_tag_count (tags : List String) (c : Int) (t : String) :
    ((tags.map fun tg => (tg, c)).filter fun r => decide (r.1 = t)).length =
      tags.count t := by
  induction tags with
  | nil => simp
  | cons a as ih =>
    by_cases hat : a = t
    · simp [List.count_cons, hat, ih]
    · simp [List.count_cons, hat, ih, Ne.symm hat]

/-- Counting the rows of one post that carry a given tag and pass the
date bound counts the tag occurrences when the post passes the bound and
nothing otherwise. -/
theorem perPost_tag_count_dated (tags : List String) (c : Int) (t : String) (cutoff : Int) :
    ((tags.map fun tg => (tg, c)).filter fun r => decide (r.1 = t ∧ cutoff ≤ r.2)).length =
      if cutoff ≤ c then tags.count t else 0 := by
  by_cases hc : cutoff ≤ c
  · have hcong : ∀ r ∈ tags.map fun tg => (tg, c),
        (decide (r.1 = t ∧ cutoff ≤ r.2)) = (decide (r.1 = t)) := by
      intro r hr
      rcases List.mem_map.1 hr with ⟨tg, _, rfl⟩
      simp [hc]
    rw [if_pos hc, List.filter_congr hcong, perPost_tag_count tags c t]
  · rw [if_neg hc]
    rw [List.length_eq_zero, List.filter_eq_nil_iff]
    intro r hr
    rcases List.mem_map.1 hr with ⟨tg, _, rfl⟩
    simp [hc]

/-- Row counting over a whole post list equals occurrence counting over
the flattened tag lists. -/
theorem rows_tag_count (ps : List Post) (t : String) :
    ((ps.flatMap fun p => p.tags.map fun tg => (tg, p.createdAt)).filter
        fun r => decide (r.1 = t)).length =
      (ps.flatMap Post.tags).count t := by
  induction ps with
  | nil => simp
  | cons p ps ih =>
    simp only [List.flatMap_cons, List.filter_append, List.length_append,
      List.count_append, ih, perPost_tag_count]

/-- Date-restricted row counting over a whole post list equals
occurrence counting over the posts that pass the date bound. -/
theorem rows_tag_count_dated (ps : List Post) (t : String) (cutoff : Int) :
    ((ps.flatMap fun p => p.tags.map fun tg => (tg, p.createdAt)).filter
        fun r => decide (r.1 = t ∧ cutoff ≤ r.2)).length =
      ((ps.filter fun p => decide (cutoff ≤ p.createdAt)).flatMap Post.tags).count t := by
  induction ps with
  | nil => simp
  | cons p ps ih =>
    rw [List.flatMap_cons, List.filter_append, List.length_append,
      perPost_tag_count_dated, ih, List.filter_cons]
    by_cases hc : cutoff ≤ p.createdAt
    · rw [if_pos hc]
      simp [hc, List.flatMap_cons, List.count_append]
    · rw [if_neg hc]
      simp [hc]

/-- Filtering published posts and then date-bounded posts is one filter
with the conjoined predicate, the shape used by recentTagOccurrences. -/
theorem filter_published_dated (posts : List Post) (cutoff : Int) :
    ((posts.filter fun p => p.isPublished).filter fun p => decide (cutoff ≤ p.createdAt)) =
      posts.filter fun p => p.isPublished && decide (cutoff ≤ p.createdAt) := by
  rw [List.filter_filter]
  exact List.filter_congr fun p _ => by
    by_cases h1 : p.isPublished <;> by_cases h2 : cutoff ≤ p.createdAt <;> simp [h1, h2]

/-- Claim C6 (amended): every row of the trending-tags output reports
the number of occurrences of its tag across the tag lists of published
posts - a post listing a tag twice contributes two - and the number of
occurrences coming from posts inside the 7-day window; the output is
sorted by recent count descending then total count descending and holds
at most limit rows. -/
theorem trendingTags_counts (posts : List Post) (now : Int) (limit : Nat) :
    (∀ r ∈ trendingTags posts now limit,
        r.totalPosts = tagOccurrences posts r.tag ∧
        r.recentPosts = recentTagOccurrences posts now r.tag) ∧
    List.Pairwise byTagRank (trendingTags posts now limit) ∧
    (trendingTags posts now limit).length ≤ limit := by
  refine ⟨?_, ?_, ?_⟩
  · intro r hr
    have hr2 : r ∈ List.insertionSort byTagRank
        (((tagRows posts).map Prod.fst).dedup.map fun t =>
          TagRow.mk t
            (((tagRows posts).filter fun r => decide (r.1 = t)).length)
            (((tagRows posts).filter fun r =>
              decide (r.1 = t ∧ now - sevenDaysMs ≤ r.2)).length)) := by
      simpa only [trendingTags] using (List.take_sublist _ _).subset hr
    rw [List.mem_insertionSort] at hr2
    rcases List.mem_map.1 hr2 with ⟨t, _, rfl⟩
    constructor
    · exact rows_tag_count (posts.filter fun p => p.isPublished) t
    · rw [show (tagRows posts) =
          ((posts.filter fun p => p.isPublished).flatMap
            fun p => p.tags.map fun tg => (tg, p.createdAt)) from rfl,
        rows_tag_count_dated, filter_published_dated]
      rfl
  · exact List.Pairwise.sublist (by simpa only [trendingTags] using List.take_sublist limit _)
      (List.sorted_insertionSort byTagRank _)
  · simpa only [trendingTags] using List.length_take_le limit _

/-- Claim C6 counterexample: a single published post whose tag list
holds the tag `lean` twice yields a total count of 2 and a recent count
of 2, while only one post contains the tag, so the counts are occurrence
counts, not post counts. -/
theorem trendingTags_dupTag_counterexample :
    trendingTags [dupTagPost] 0 10 =
      [{ tag := "lean", totalPosts := 2, recentPosts := 2 }] ∧
    postsContainingTag [dupTagPost] "lean" = 1 ∧ (2 : Nat) ≠ 1 :=
  ⟨by decide, by decide, by decide⟩

/-- Claim C6 witness: the amended count property holds on the witness
store. -/
theorem trendingTags_counts_witness :
    (∀ r ∈ trendingTags wPosts wNow 5,
        r.totalPosts = tagOccurrences wPosts r.tag ∧
        r.recentPosts = recentTagOccurrences wPosts wNow r.tag) ∧
    List.Pairwise byTagRank (trendingTags wPosts wNow 5) ∧
    (trendingTags wPosts wNow 5).length ≤ 5 :=
  trendingTags_counts wPosts wNow 5

end CommunityBlog
